import Mathlib

/-!
Verification of the scan-orchestration core of the distributed media server
(library-service `POST /libraries/:id/scan` route, the JWT middleware and the
connection bootstrap loops), as a shallow embedding.

External collaborators (the record store, the Consul registry, the gRPC scan
peer) are modelled as oracles inside `ScanEnv`: each field holds the outcome
the corresponding external call would produce if issued.  The handler is a
pure function from the environment to a `RouteOutcome` that records the HTTP
response together with the observable effects (whether the registry was
queried, which RPC call was issued, which queue messages were published).
-/

/-- A JavaScript `err.code` value: gRPC errors carry a numeric status code,
Node transport errors carry a string code such as "ECONNREFUSED", and plain
errors carry none.  The catch block compares codes with strict equality
(`===`) against the numeric `grpc.status` constants, so a string code never
matches a numeric one. -/
inductive JsCode where
  | num : Nat → JsCode
  | str : String → JsCode
  | undef : JsCode
deriving DecidableEq

/-- A thrown JavaScript error as observed by the catch block: its `code`
and its `message`. -/
structure JsError where
  code : JsCode
  message : String
deriving DecidableEq

/-- Numeric value of `grpc.status.DEADLINE_EXCEEDED` in @grpc/grpc-js. -/
def grpcStatusDeadlineExceeded : Nat := 4

/-- Numeric value of `grpc.status.NOT_FOUND` in @grpc/grpc-js. -/
def grpcStatusNotFound : Nat := 5

/-- Numeric value of `grpc.status.UNAVAILABLE` in @grpc/grpc-js. -/
def grpcStatusUnavailable : Nat := 14

/-- A row of the `libraries` table as read by the scan route
(`SELECT * FROM libraries WHERE id = $1`). -/
structure Library where
  id : Nat
  name : String
  path_on_agent : String
  agent_tag : String
deriving DecidableEq

/-- The `Service` part of one entry of a Consul `health.service` response:
`Address` and `Port` of one healthy instance. -/
structure ConsulService where
  Address : String
  Port : Nat
deriving DecidableEq

/-- One entry of the Consul `health.service` response; the route reads
`services[0].Service`. -/
structure ConsulEntry where
  Service : ConsulService
deriving DecidableEq

/-- One element of the gRPC scan response's `files_found` sequence. -/
structure FileEntry where
  file_path : String
  file_size_bytes : Nat
  last_modified : String
deriving DecidableEq

/-- The gRPC `ScanPath` response.  `files_found` is `none` when the field is
absent or null on the wire (the handler applies `|| []`). -/
structure ScanResponse where
  files_found : Option (List FileEntry)
deriving DecidableEq

/-- The message the fan-out loop publishes to the metadata queue, one per
discovered file. -/
structure QueueMessage where
  libraryId : Nat
  file_path : String
  file_size_bytes : Nat
  last_modified : String
deriving DecidableEq

/-- The gRPC call the route issues: target address string
(`Address:Port` of the selected agent), the `path_to_scan` request field, and
the absolute deadline in milliseconds. -/
structure RpcCall where
  address : String
  path_to_scan : String
  deadline : Nat
deriving DecidableEq

/-- Oracle environment for one request: current wall clock in ms, the outcome
of the library `SELECT`, the outcome of the Consul health query, the outcome
of the gRPC `ScanPath` call (were each of them issued), and whether the
process-wide `rabbitChannel` is currently established. -/
structure ScanEnv where
  now : Nat
  dbLookup : Except JsError (Option Library)
  consulResolve : Except JsError (List ConsulEntry)
  scanRpc : Except JsError ScanResponse
  rabbitChannel : Bool

/-- The observable outcome of one request: the HTTP response fields and the
side effects the handler performed. -/
structure RouteOutcome where
  status : Nat
  message : String
  files_found_count : Option Nat
  errorBody : Option String
  dbQueried : Bool
  consulQueried : Bool
  rpcCall : Option RpcCall
  published : List QueueMessage
deriving DecidableEq

/-- Name of the durable queue declared and published to
(`const METADATA_QUEUE = 'metadata_requests'`). -/
def METADATA_QUEUE : String := "metadata_requests"

/-- HTTP status chosen by the route's catch block for a thrown error. -/
def catchStatus (e : JsError) : Nat :=
  if e.code = JsCode.num grpcStatusDeadlineExceeded then 504
  else if e.code = JsCode.num grpcStatusUnavailable ∨ e.code = JsCode.num grpcStatusNotFound then 503
  else 500

/-- Response message chosen by the route's catch block for a thrown error. -/
def catchMessage (e : JsError) : String :=
  if e.code = JsCode.num grpcStatusDeadlineExceeded then "Timeout: the scan is taking too long."
  else if e.code = JsCode.num grpcStatusUnavailable ∨ e.code = JsCode.num grpcStatusNotFound then
    "Agent service not reachable or not found."
  else "Internal server error"

/-- The `error` field of the response body: only the generic 500 branch
includes the underlying error message. -/
def catchErrorBody (e : JsError) : Option String :=
  if e.code = JsCode.num grpcStatusDeadlineExceeded then none
  else if e.code = JsCode.num grpcStatusUnavailable ∨ e.code = JsCode.num grpcStatusNotFound then none
  else some e.message

/-- Builds the queue message the fan-out loop constructs for one file. -/
def queueMessageOf (library : Library) (file : FileEntry) : QueueMessage :=
  { libraryId := library.id
    file_path := file.file_path
    file_size_bytes := file.file_size_bytes
    last_modified := file.last_modified }

/-- The body of `app.post('/libraries/:id/scan')` after authentication:
library lookup, Consul resolution, first-endpoint selection, gRPC call with a
10-minute deadline, fan-out of one persistent message per file when the
broker channel is up, and the catch block mapping thrown errors to statuses. -/
def scanHandler (env : ScanEnv) : RouteOutcome :=
  match env.dbLookup with
  | Except.error e =>
      { status := catchStatus e, message := catchMessage e, files_found_count := none
        errorBody := catchErrorBody e, dbQueried := true, consulQueried := false
        rpcCall := none, published := [] }
  | Except.ok none =>
      { status := 404, message := "Libreria non trovata", files_found_count := none
        errorBody := none, dbQueried := true, consulQueried := false
        rpcCall := none, published := [] }
  | Except.ok (some library) =>
      match env.consulResolve with
      | Except.error e =>
          { status := catchStatus e, message := catchMessage e, files_found_count := none
            errorBody := catchErrorBody e, dbQueried := true, consulQueried := true
            rpcCall := none, published := [] }
      | Except.ok services =>
          match services with
          | [] =>
              { status := 404
                message := "Nessun agente \x27sano\x27 trovato per " ++ library.agent_tag
                files_found_count := none, errorBody := none
                dbQueried := true, consulQueried := true, rpcCall := none, published := [] }
          | agent0 :: _ =>
              let agentNode := agent0.Service
              let agentAddress := agentNode.Address ++ ":" ++ toString agentNode.Port
              let call : RpcCall :=
                { address := agentAddress
                  path_to_scan := library.path_on_agent
                  deadline := env.now + 10 * 60 * 1000 }
              match env.scanRpc with
              | Except.error e =>
                  { status := catchStatus e, message := catchMessage e
                    files_found_count := none, errorBody := catchErrorBody e
                    dbQueried := true, consulQueried := true
                    rpcCall := some call, published := [] }
              | Except.ok scanResponse =>
                  let filesFound := scanResponse.files_found.getD []
                  { status := 200
                    message := "Scan completed and messages sent for processing."
                    files_found_count := some filesFound.length
                    errorBody := none
                    dbQueried := true, consulQueried := true
                    rpcCall := some call
                    published :=
                      if env.rabbitChannel then filesFound.map (queueMessageOf library)
                      else [] }

/-- Result of `jwt.verify` on a token: the decoded `{id, username}` claims,
or a verification error (bad signature, expired, malformed). -/
inductive VerifyResult where
  | ok (id : Nat) (username : String)
  | err
deriving DecidableEq

/-- JavaScript `String.prototype.split` with a single-character separator:
splits into the (possibly empty) chunks between separator occurrences. -/
def jsSplit (sep : Char) : List Char → List (List Char)
  | [] => [[]]
  | c :: rest =>
    if c = sep then [] :: jsSplit sep rest
    else
      match jsSplit sep rest with
      | [] => [[c]]
      | w :: ws => (c :: w) :: ws

/-- Extracts the bearer token from the Authorization header, as
`authHeader && authHeader.split(' ')[1]` does: `none` when the header is
absent or has no second space-separated part; a present-but-empty header is
falsy and short-circuits to the empty string (which then reaches
`jwt.verify` and fails there). -/
def extractToken (authHeader : Option String) : Option String :=
  match authHeader with
  | none => none
  | some h =>
      if h = "" then some ""
      else ((jsSplit ' ' h.data).map (fun cs => String.mk cs)).get? 1

/-- An early-rejection response produced by the middleware: no orchestration
effect has happened. -/
def authRejected (status : Nat) (msg : String) : RouteOutcome :=
  { status := status, message := msg, files_found_count := none, errorBody := none
    dbQueried := false, consulQueried := false, rpcCall := none, published := [] }

/-- The `authenticateToken` middleware: missing token → 401 response, failed
`jwt.verify` → 403 response, otherwise the decoded user claims are passed on. -/
def authenticateToken (authHeader : Option String) (verify : String → VerifyResult) :
    Except RouteOutcome (Nat × String) :=
  match extractToken authHeader with
  | none => Except.error (authRejected 401 "Token non fornito")
  | some token =>
      match verify token with
      | VerifyResult.err => Except.error (authRejected 403 "Token non valido")
      | VerifyResult.ok i u => Except.ok (i, u)

/-- The full route: `authenticateToken` runs first; only on success does the
scan handler body execute. -/
def scanRoute (authHeader : Option String) (verify : String → VerifyResult)
    (env : ScanEnv) : RouteOutcome :=
  match authenticateToken authHeader verify with
  | Except.error r => r
  | Except.ok _ => scanHandler env

/-- Events emitted by the connection bootstrap loops. -/
inductive SupEvent where
  | retryScheduled (delayMs : Nat)
  | queueAsserted (queue : String) (durable : Bool)
  | connected
  | tableEnsured (table : String)
deriving DecidableEq

/-- The `connectRabbitMQ` loop over a sequence of attempt outcomes
(`false` = the connect/createChannel/assertQueue chain threw): each failure
schedules `setTimeout(connectRabbitMQ, 5000)`; the first success asserts the
durable metadata queue and leaves the channel established. -/
def connectRabbitMQ_run : List Bool → List SupEvent
  | [] => []
  | false :: rest => SupEvent.retryScheduled 5000 :: connectRabbitMQ_run rest
  | true :: _ => [SupEvent.queueAsserted METADATA_QUEUE true, SupEvent.connected]

/-- The `initializeDatabase` loop over a sequence of attempt outcomes: each
failure schedules `setTimeout(initializeDatabase, 5000)`; the first success
ensures the `libraries` table exists. -/
def initializeDatabase_run : List Bool → List SupEvent
  | [] => []
  | false :: rest => SupEvent.retryScheduled 5000 :: initializeDatabase_run rest
  | true :: _ => [SupEvent.tableEnsured "libraries"]

/-- No orchestration step was performed: no record-store read, no registry
query, no RPC call, no publish. -/
def noOrchestration (o : RouteOutcome) : Prop :=
  o.dbQueried = false ∧ o.consulQueried = false ∧ o.rpcCall = none ∧ o.published = []

instance (o : RouteOutcome) : Decidable (noOrchestration o) := by
  unfold noOrchestration; infer_instance

/-! Concrete fixtures used by witnesses and counterexamples. -/

/-- A concrete library record. -/
def libA : Library :=
  { id := 1, name := "Movies", path_on_agent := "/media/movies", agent_tag := "scanner-a" }

/-- A concrete healthy agent instance. -/
def svcA : ConsulService := { Address := "10.0.0.5", Port := 50051 }

/-- A concrete Consul response entry wrapping `svcA`. -/
def entryA : ConsulEntry := { Service := svcA }

/-- A concrete discovered file. -/
def fileA : FileEntry :=
  { file_path := "/media/movies/a.mkv", file_size_bytes := 100, last_modified := "1700000000" }

/-- A scan response carrying exactly one file. -/
def respOne : ScanResponse := { files_found := some [fileA] }

/-! Environments for the witnesses and counterexamples. -/

/-- Everything healthy but the broker channel down; the RPC finds one file. -/
def envBrokerDown : ScanEnv :=
  { now := 0, dbLookup := Except.ok (some libA), consulResolve := Except.ok [entryA]
    scanRpc := Except.ok respOne, rabbitChannel := false }

/-- Library found but Consul reports zero healthy instances. -/
def envNoHealthy : ScanEnv :=
  { now := 0, dbLookup := Except.ok (some libA), consulResolve := Except.ok []
    scanRpc := Except.ok respOne, rabbitChannel := true }

/-- A Consul transport failure: a Node error with the string code
"ECONNREFUSED". -/
def errConsulDown : JsError :=
  { code := JsCode.str "ECONNREFUSED", message := "connect ECONNREFUSED consul:8500" }

/-- Library found but the registry itself cannot be contacted. -/
def envRegistryDown : ScanEnv :=
  { now := 0, dbLookup := Except.ok (some libA), consulResolve := Except.error errConsulDown
    scanRpc := Except.ok respOne, rabbitChannel := true }

/-- A gRPC error with status DEADLINE_EXCEEDED. -/
def errDeadline : JsError :=
  { code := JsCode.num grpcStatusDeadlineExceeded, message := "Deadline exceeded" }

/-- Healthy path up to the RPC, which times out. -/
def envTimeout : ScanEnv :=
  { now := 0, dbLookup := Except.ok (some libA), consulResolve := Except.ok [entryA]
    scanRpc := Except.error errDeadline, rabbitChannel := true }

/-- The requested library id is absent from the record store. -/
def envNotFound : ScanEnv :=
  { now := 0, dbLookup := Except.ok none, consulResolve := Except.ok [entryA]
    scanRpc := Except.ok respOne, rabbitChannel := true }

/-- C1 counterexample: with the broker readiness flag false, a successful RPC
returning 1 file leads to 0 publish attempts (the fan-out loop is skipped
entirely), not 1; the response is still 200 with files_found_count = 1. -/
theorem C1_counterexample :
    (scanHandler envBrokerDown).files_found_count = some 1
    ∧ (scanHandler envBrokerDown).published.length = 0
    ∧ (scanHandler envBrokerDown).status = 200 := by
  decide

/-- C1 (amended): for a successful RPC returning k files, the response is 200
with files_found_count = k regardless of broker state; when the broker channel
is established the handler publishes exactly one message per file in order,
and when the broker readiness flag is false it makes zero publish attempts. -/
theorem C1_fanout (env : ScanEnv) (lib : Library) (e0 : ConsulEntry)
    (rest : List ConsulEntry) (r : ScanResponse)
    (hdb : env.dbLookup = Except.ok (some lib))
    (hcs : env.consulResolve = Except.ok (e0 :: rest))
    (hrpc : env.scanRpc = Except.ok r) :
    (scanHandler env).status = 200
    ∧ (scanHandler env).files_found_count = some (r.files_found.getD []).length
    ∧ (scanHandler env).published
        = (if env.rabbitChannel then (r.files_found.getD []).map (queueMessageOf lib)
           else []) := by
  simp [scanHandler, hdb, hcs, hrpc]

/-- C1 witness: the amended statement evaluated on a concrete broker-up
environment with one discovered file. -/
theorem C1_fanout_witness :
    (scanHandler { envBrokerDown with rabbitChannel := true }).status = 200
    ∧ (scanHandler { envBrokerDown with rabbitChannel := true }).files_found_count
        = some (respOne.files_found.getD []).length
    ∧ (scanHandler { envBrokerDown with rabbitChannel := true }).published
        = (if ({ envBrokerDown with rabbitChannel := true } : ScanEnv).rabbitChannel then
             (respOne.files_found.getD []).map (queueMessageOf libA)
           else []) :=
  C1_fanout { envBrokerDown with rabbitChannel := true } libA entryA [] respOne rfl rfl rfl

/-- C2 counterexample: with the library present and Consul returning an empty
healthy set, the response status is 404, not 503 (and no RPC is invoked). -/
theorem C2_counterexample :
    (scanHandler envNoHealthy).status = 404
    ∧ (scanHandler envNoHealthy).status ≠ 503
    ∧ (scanHandler envNoHealthy).rpcCall = none := by
  decide

/-- C2 (amended): when the registry lookup returns an empty set of healthy
endpoints, the handler responds 404 (a not-found-class outcome) naming the
agent tag, with no RPC invocation and no publish. -/
theorem C2_noHealthyWorker (env : ScanEnv) (lib : Library)
    (hdb : env.dbLookup = Except.ok (some lib))
    (hcs : env.consulResolve = Except.ok []) :
    (scanHandler env).status = 404
    ∧ (scanHandler env).message = "Nessun agente \x27sano\x27 trovato per " ++ lib.agent_tag
    ∧ (scanHandler env).rpcCall = none
    ∧ (scanHandler env).published = [] := by
  simp [scanHandler, hdb, hcs]

/-- C2 witness: the amended statement evaluated on the concrete
empty-registry environment. -/
theorem C2_noHealthyWorker_witness :
    (scanHandler envNoHealthy).status = 404
    ∧ (scanHandler envNoHealthy).message
        = "Nessun agente \x27sano\x27 trovato per " ++ libA.agent_tag
    ∧ (scanHandler envNoHealthy).rpcCall = none
    ∧ (scanHandler envNoHealthy).published = [] :=
  C2_noHealthyWorker envNoHealthy libA rfl rfl

/-- C3: when the RPC call fails with gRPC status DEADLINE_EXCEEDED, the
response is 504 and zero queue messages are published. -/
theorem C3_timeout (env : ScanEnv) (lib : Library) (e0 : ConsulEntry)
    (rest : List ConsulEntry) (e : JsError)
    (hdb : env.dbLookup = Except.ok (some lib))
    (hcs : env.consulResolve = Except.ok (e0 :: rest))
    (hrpc : env.scanRpc = Except.error e)
    (hcode : e.code = JsCode.num grpcStatusDeadlineExceeded) :
    (scanHandler env).status = 504
    ∧ (scanHandler env).message = "Timeout: the scan is taking too long."
    ∧ (scanHandler env).published = [] := by
  simp [scanHandler, hdb, hcs, hrpc, catchStatus, catchMessage, hcode]

/-- C3 witness: the theorem evaluated on the concrete timeout environment. -/
theorem C3_timeout_witness :
    (scanHandler envTimeout).status = 504
    ∧ (scanHandler envTimeout).message = "Timeout: the scan is taking too long."
    ∧ (scanHandler envTimeout).published = [] :=
  C3_timeout envTimeout libA entryA [] errDeadline rfl rfl rfl rfl

/-- C4: when the library id is absent from the record store, the response is
404 and neither the registry, nor the RPC peer, nor the broker is touched. -/
theorem C4_notFound (env : ScanEnv)
    (hdb : env.dbLookup = Except.ok none) :
    (scanHandler env).status = 404
    ∧ (scanHandler env).message = "Libreria non trovata"
    ∧ (scanHandler env).consulQueried = false
    ∧ (scanHandler env).rpcCall = none
    ∧ (scanHandler env).published = [] := by
  simp [scanHandler, hdb]

/-- C4 witness: the theorem evaluated on the concrete absent-library
environment. -/
theorem C4_notFound_witness :
    (scanHandler envNotFound).status = 404
    ∧ (scanHandler envNotFound).message = "Libreria non trovata"
    ∧ (scanHandler envNotFound).consulQueried = false
    ∧ (scanHandler envNotFound).rpcCall = none
    ∧ (scanHandler envNotFound).published = [] :=
  C4_notFound envNotFound rfl

/-- C5 counterexample: a registry transport failure (Node error code
"ECONNREFUSED") falls into the generic catch branch and yields 500 with the
underlying error message, not 503. -/
theorem C5_counterexample :
    (scanHandler envRegistryDown).status = 500
    ∧ (scanHandler envRegistryDown).status ≠ 503
    ∧ (scanHandler envRegistryDown).errorBody = some "connect ECONNREFUSED consul:8500" := by
  decide

/-- C5 (amended): a registry transport failure surfaces as a thrown error
whose string code matches none of the numeric gRPC statuses the catch block
tests for, so the handler responds 500 "Internal server error" with the
underlying message — it is not mapped to 503, and no RPC is invoked. -/
theorem C5_registryUnreachable (env : ScanEnv) (lib : Library) (e : JsError) (s : String)
    (hdb : env.dbLookup = Except.ok (some lib))
    (hcs : env.consulResolve = Except.error e)
    (hcode : e.code = JsCode.str s) :
    (scanHandler env).status = 500
    ∧ (scanHandler env).message = "Internal server error"
    ∧ (scanHandler env).errorBody = some e.message
    ∧ (scanHandler env).rpcCall = none := by
  simp [scanHandler, hdb, hcs, catchStatus, catchMessage, catchErrorBody, hcode]

/-- C5 witness: the amended statement evaluated on the concrete
registry-down environment. -/
theorem C5_registryUnreachable_witness :
    (scanHandler envRegistryDown).status = 500
    ∧ (scanHandler envRegistryDown).message = "Internal server error"
    ∧ (scanHandler envRegistryDown).errorBody = some errConsulDown.message
    ∧ (scanHandler envRegistryDown).rpcCall = none :=
  C5_registryUnreachable envRegistryDown libA errConsulDown "ECONNREFUSED" rfl rfl rfl

/-- A `jwt.verify` oracle that rejects every token. -/
def verifyAllErr : String → VerifyResult := fun _ => VerifyResult.err

/-- All collaborators healthy, broker up, one file discovered (Scenario A
shape). -/
def envScenarioA : ScanEnv :=
  { now := 0, dbLookup := Except.ok (some libA), consulResolve := Except.ok [entryA]
    scanRpc := Except.ok respOne, rabbitChannel := true }

/-- The RPC succeeds but the response carries no `files_found` field. -/
def envNullFiles : ScanEnv :=
  { now := 0, dbLookup := Except.ok (some libA), consulResolve := Except.ok [entryA]
    scanRpc := Except.ok { files_found := none }, rabbitChannel := true }

/-- A gRPC error with status NOT_FOUND. -/
def errNotFound : JsError :=
  { code := JsCode.num grpcStatusNotFound, message := "5 NOT_FOUND: path does not exist" }

/-- Healthy path up to the RPC, which fails with gRPC NOT_FOUND. -/
def envRpcNotFound : ScanEnv :=
  { now := 0, dbLookup := Except.ok (some libA), consulResolve := Except.ok [entryA]
    scanRpc := Except.error errNotFound, rabbitChannel := true }

/-- A record-store transport failure: a Node error with a string code. -/
def errDbDown : JsError :=
  { code := JsCode.str "ECONNREFUSED", message := "connect ECONNREFUSED db:5432" }

/-- The library `SELECT` itself throws. -/
def envDbDown : ScanEnv :=
  { now := 0, dbLookup := Except.error errDbDown, consulResolve := Except.ok [entryA]
    scanRpc := Except.ok respOne, rabbitChannel := true }

/-- C6: authentication runs before any orchestration step.  A request whose
header yields no token is rejected 401, and a request whose token fails
`jwt.verify` is rejected 403; in both cases no record-store read, registry
query, RPC call, or publish happens. -/
theorem C6_authFirst (hdr : Option String) (verify : String → VerifyResult) (env : ScanEnv) :
    (extractToken hdr = none →
      (scanRoute hdr verify env).status = 401 ∧ noOrchestration (scanRoute hdr verify env))
    ∧ (∀ t, extractToken hdr = some t → verify t = VerifyResult.err →
      (scanRoute hdr verify env).status = 403 ∧ noOrchestration (scanRoute hdr verify env)) := by
  constructor
  · intro h
    simp [scanRoute, authenticateToken, h, authRejected, noOrchestration]
  · intro t ht hv
    simp [scanRoute, authenticateToken, ht, hv, authRejected, noOrchestration]

/-- C6 witness: a missing header is rejected 401 and a rejected bearer token
403, both with no orchestration effects, on concrete inputs. -/
theorem C6_authFirst_witness :
    ((scanRoute none verifyAllErr envScenarioA).status = 401
      ∧ noOrchestration (scanRoute none verifyAllErr envScenarioA))
    ∧ ((scanRoute (some "Bearer bad") verifyAllErr envScenarioA).status = 403
      ∧ noOrchestration (scanRoute (some "Bearer bad") verifyAllErr envScenarioA)) :=
  ⟨(C6_authFirst none verifyAllErr envScenarioA).1 rfl,
   (C6_authFirst (some "Bearer bad") verifyAllErr envScenarioA).2 "bad" (by decide) rfl⟩

/-- C7: with a non-empty registry response, the handler selects the first
entry in response order and issues the scan RPC against its
`Address:Port`, with the library's `path_on_agent` as the path to scan and a
deadline of now + 10 minutes. -/
theorem C7_firstEndpoint (env : ScanEnv) (lib : Library) (e0 : ConsulEntry)
    (rest : List ConsulEntry)
    (hdb : env.dbLookup = Except.ok (some lib))
    (hcs : env.consulResolve = Except.ok (e0 :: rest)) :
    (scanHandler env).rpcCall =
      some { address := e0.Service.Address ++ ":" ++ toString e0.Service.Port
             path_to_scan := lib.path_on_agent
             deadline := env.now + 10 * 60 * 1000 } := by
  cases hr : env.scanRpc <;> simp [scanHandler, hdb, hcs, hr]

/-- C7 witness: the theorem evaluated on the concrete healthy environment. -/
theorem C7_firstEndpoint_witness :
    (scanHandler envScenarioA).rpcCall =
      some { address := entryA.Service.Address ++ ":" ++ toString entryA.Service.Port
             path_to_scan := libA.path_on_agent
             deadline := envScenarioA.now + 10 * 60 * 1000 } :=
  C7_firstEndpoint envScenarioA libA entryA [] rfl rfl

/-- Unrolls the retry prefix of the broker bootstrap loop. -/
theorem connectRabbitMQ_run_replicate (n : Nat) (tail : List Bool) :
    connectRabbitMQ_run (List.replicate n false ++ tail)
      = List.replicate n (SupEvent.retryScheduled 5000) ++ connectRabbitMQ_run tail := by
  induction n with
  | zero => simp
  | succ n ih => simp [List.replicate_succ, connectRabbitMQ_run, ih]

/-- Unrolls the retry prefix of the record-store bootstrap loop. -/
theorem initializeDatabase_run_replicate (n : Nat) (tail : List Bool) :
    initializeDatabase_run (List.replicate n false ++ tail)
      = List.replicate n (SupEvent.retryScheduled 5000) ++ initializeDatabase_run tail := by
  induction n with
  | zero => simp
  | succ n ih => simp [List.replicate_succ, initializeDatabase_run, ih]

/-- C8: for any number n of consecutive connection failures, each bootstrap
loop (broker and record store) schedules exactly one retry per failure with a
flat 5000 ms delay and keeps going; a subsequent successful broker connection
re-declares the durable metadata queue; and these infrastructure retries
never surface as request-level errors — a request whose own collaborators
succeed gets a 200 response regardless of the broker readiness flag. -/
theorem C8_supervisor (n : Nat) :
    connectRabbitMQ_run (List.replicate n false)
      = List.replicate n (SupEvent.retryScheduled 5000)
    ∧ connectRabbitMQ_run (List.replicate n false ++ [true])
      = List.replicate n (SupEvent.retryScheduled 5000)
        ++ [SupEvent.queueAsserted METADATA_QUEUE true, SupEvent.connected]
    ∧ initializeDatabase_run (List.replicate n false)
      = List.replicate n (SupEvent.retryScheduled 5000)
    ∧ initializeDatabase_run (List.replicate n false ++ [true])
      = List.replicate n (SupEvent.retryScheduled 5000) ++ [SupEvent.tableEnsured "libraries"]
    ∧ (∀ env : ScanEnv, ∀ lib : Library, ∀ e0 : ConsulEntry, ∀ rest : List ConsulEntry,
        ∀ r : ScanResponse,
        env.dbLookup = Except.ok (some lib) → env.consulResolve = Except.ok (e0 :: rest) →
        env.scanRpc = Except.ok r → (scanHandler env).status = 200) := by
  refine ⟨?_, ?_, ?_, ?_, ?_⟩
  · simpa [connectRabbitMQ_run] using connectRabbitMQ_run_replicate n []
  · simp [connectRabbitMQ_run_replicate, connectRabbitMQ_run]
  · simpa [initializeDatabase_run] using initializeDatabase_run_replicate n []
  · simp [initializeDatabase_run_replicate, initializeDatabase_run]
  · intro env lib e0 rest r hdb hcs hrpc
    simp [scanHandler, hdb, hcs, hrpc]

/-- C8 witness: two failures schedule two flat 5000 ms retries, a success
then re-declares the durable queue, and a concrete healthy request returns
200. -/
theorem C8_supervisor_witness :
    connectRabbitMQ_run (List.replicate 2 false)
      = List.replicate 2 (SupEvent.retryScheduled 5000)
    ∧ connectRabbitMQ_run (List.replicate 2 false ++ [true])
      = List.replicate 2 (SupEvent.retryScheduled 5000)
        ++ [SupEvent.queueAsserted METADATA_QUEUE true, SupEvent.connected]
    ∧ (scanHandler envScenarioA).status = 200 :=
  ⟨(C8_supervisor 2).1, (C8_supervisor 2).2.1,
   (C8_supervisor 2).2.2.2.2 envScenarioA libA entryA [] respOne rfl rfl rfl⟩

/-- C9: when the RPC succeeds but the response carries no `files_found`
field, the handler treats it as an empty list: the response is 200 with
files_found_count = 0 and zero messages are published. -/
theorem C9_missingFilesField (env : ScanEnv) (lib : Library) (e0 : ConsulEntry)
    (rest : List ConsulEntry)
    (hdb : env.dbLookup = Except.ok (some lib))
    (hcs : env.consulResolve = Except.ok (e0 :: rest))
    (hrpc : env.scanRpc = Except.ok { files_found := none }) :
    (scanHandler env).status = 200
    ∧ (scanHandler env).files_found_count = some 0
    ∧ (scanHandler env).published = [] := by
  simp [scanHandler, hdb, hcs, hrpc]

/-- C9 witness: the theorem evaluated on the concrete null-files
environment. -/
theorem C9_missingFilesField_witness :
    (scanHandler envNullFiles).status = 200
    ∧ (scanHandler envNullFiles).files_found_count = some 0
    ∧ (scanHandler envNullFiles).published = [] :=
  C9_missingFilesField envNullFiles libA entryA [] rfl rfl rfl

/-- C10: a gRPC NOT_FOUND failure of the scan RPC maps to 503 exactly like
UNAVAILABLE, while any thrown error whose code matches none of the three
recognized gRPC statuses — wherever it arises: record-store read, registry
query, or the RPC — maps to 500 with the underlying error message in the
response body. -/
theorem C10_errorMapping (env : ScanEnv) (lib : Library) (e0 : ConsulEntry)
    (rest : List ConsulEntry) (e : JsError) :
    (env.dbLookup = Except.ok (some lib) → env.consulResolve = Except.ok (e0 :: rest) →
      env.scanRpc = Except.error e → e.code = JsCode.num grpcStatusNotFound →
      (scanHandler env).status = 503
      ∧ (scanHandler env).message = "Agent service not reachable or not found.")
    ∧ (env.dbLookup = Except.ok (some lib) → env.consulResolve = Except.ok (e0 :: rest) →
      env.scanRpc = Except.error e → e.code = JsCode.num grpcStatusUnavailable →
      (scanHandler env).status = 503
      ∧ (scanHandler env).message = "Agent service not reachable or not found.")
    ∧ (e.code ≠ JsCode.num grpcStatusDeadlineExceeded →
      e.code ≠ JsCode.num grpcStatusUnavailable →
      e.code ≠ JsCode.num grpcStatusNotFound →
      (env.dbLookup = Except.error e →
        (scanHandler env).status = 500 ∧ (scanHandler env).errorBody = some e.message)
      ∧ (env.dbLookup = Except.ok (some lib) → env.consulResolve = Except.error e →
        (scanHandler env).status = 500 ∧ (scanHandler env).errorBody = some e.message)
      ∧ (env.dbLookup = Except.ok (some lib) → env.consulResolve = Except.ok (e0 :: rest) →
        env.scanRpc = Except.error e →
        (scanHandler env).status = 500 ∧ (scanHandler env).errorBody = some e.message)) := by
  refine ⟨?_, ?_, ?_⟩
  · intro hdb hcs hrpc hcode
    simp [scanHandler, hdb, hcs, hrpc, catchStatus, catchMessage, hcode,
      grpcStatusNotFound, grpcStatusDeadlineExceeded]
  · intro hdb hcs hrpc hcode
    simp [scanHandler, hdb, hcs, hrpc, catchStatus, catchMessage, hcode,
      grpcStatusUnavailable, grpcStatusDeadlineExceeded]
  · intro h4 h14 h5
    refine ⟨?_, ?_, ?_⟩
    · intro hdb
      simp [scanHandler, hdb, catchStatus, catchErrorBody, h4, h14, h5]
    · intro hdb hcs
      simp [scanHandler, hdb, hcs, catchStatus, catchErrorBody, h4, h14, h5]
    · intro hdb hcs hrpc
      simp [scanHandler, hdb, hcs, hrpc, catchStatus, catchErrorBody, h4, h14, h5]

/-- C10 witness: a concrete gRPC NOT_FOUND failure returns 503, and a
concrete record-store transport failure returns 500 with its message. -/
theorem C10_errorMapping_witness :
    ((scanHandler envRpcNotFound).status = 503
      ∧ (scanHandler envRpcNotFound).message = "Agent service not reachable or not found.")
    ∧ ((scanHandler envDbDown).status = 500
      ∧ (scanHandler envDbDown).errorBody = some errDbDown.message) :=
  ⟨(C10_errorMapping envRpcNotFound libA entryA [] errNotFound).1 rfl rfl rfl rfl,
   ((C10_errorMapping envDbDown libA entryA [] errDbDown).2.2
      (by decide) (by decide) (by decide)).1 rfl⟩
